import Mathlib

/-!
Verification of the Nature Archive repository core: the observation
lifecycle and account synchronization engine, the discovery confirmation
workflow, and the authentication service and context.

The definitions below are shallow embeddings of the TypeScript source:

* `src/nature-archive/src/types/index.ts` — the data model
  (`UserSettings`, `UserStats`, `User`, `ObservationStatus`,
  `Observation`, `ConfirmedSpecies`, ...).
* the authentication service (`signUp`, `getUserData`,
  `completeOnboarding`, `getAuthErrorMessage`) with its defaults
  `DEFAULT_USER_SETTINGS` and `DEFAULT_USER_STATS`.
* `src/nature-archive/src/contexts/AuthContext.tsx` — the
  `onAuthStateChanged` handler and the `completeOnboarding` callback.

Asynchronous handlers are embedded as functions returning the list of
locally observable views: one view per suspend point (each `await`) plus
the view after the handler completes, following the single-threaded
cooperative scheduling model of the platform.

The observation lifecycle engine and the discovery confirmation workflow
are declared in the types module but not implemented in the repository;
they are modelled from the specification (transition table of section 4.1
and workflow of section 4.2) and marked as such on each definition.
-/

namespace NatureArchive

/-- App language preference, from `UserSettings.language : 'nl' | 'en'`. -/
inductive Language where
  | nl
  | en
deriving DecidableEq, Repr

/-- User settings, from `UserSettings` in `types/index.ts`. -/
structure UserSettings where
  locationEnabled : Bool
  language : Language
deriving DecidableEq, Repr

/-- User statistics, from `UserStats` in `types/index.ts`. -/
structure UserStats where
  observationsCount : Nat
  speciesDiscoveredCount : Nat
deriving DecidableEq, Repr

/-- Default settings for new users, from `DEFAULT_USER_SETTINGS` in the
authentication service: location off for privacy, Dutch language. -/
def DEFAULT_USER_SETTINGS : UserSettings :=
  { locationEnabled := false, language := .nl }

/-- Default statistics for new users, from `DEFAULT_USER_STATS` in the
authentication service. -/
def DEFAULT_USER_STATS : UserStats :=
  { observationsCount := 0, speciesDiscoveredCount := 0 }

/-- The Firestore user document at `users/uid`. Every field is optional
because an arbitrary persisted document may lack any of them; `signUp`
writes all five keys. `email` is `Option String` already at the source
type level (`firebaseUser.email : string | null`). Timestamps are
embedded as natural numbers. -/
structure UserDoc where
  email : Option String
  createdAt : Option Nat
  onboardingCompleted : Option Bool
  settings : Option UserSettings
  stats : Option UserStats
deriving DecidableEq, Repr

/-- The user document written by `signUp` after the auth account is
created: email copied from the auth user, server timestamp, onboarding
not completed, default settings and statistics. -/
def signUpUserDoc (email : Option String) (now : Nat) : UserDoc :=
  { email := email
    createdAt := some now
    onboardingCompleted := some false
    settings := some DEFAULT_USER_SETTINGS
    stats := some DEFAULT_USER_STATS }

/-- The runtime value returned by `getUserData`. It mirrors the `User`
interface of `types/index.ts`, except that `email` is embedded as
`Option String`: the source assigns `data.email` through without a
default, so at runtime the field is `undefined` whenever the document
lacks it (the static type `string` notwithstanding). -/
structure LoadedUser where
  email : Option String
  createdAt : Nat
  onboardingCompleted : Bool
  settings : UserSettings
  stats : UserStats
deriving DecidableEq, Repr

/-- `getUserData` from the authentication service: returns `none` when
the document does not exist; otherwise builds the profile, substituting
a default for each missing field (`x || default` on falsy JavaScript
values, `createdAt?.toDate() || new Date()` for the timestamp) and
copying `email` through unchanged. `now` stands for `new Date()`. -/
def getUserData (doc : Option UserDoc) (now : Nat) : Option LoadedUser :=
  match doc with
  | none => none
  | some data =>
    some
      { email := data.email
        createdAt := data.createdAt.getD now
        onboardingCompleted := data.onboardingCompleted.getD false
        settings := data.settings.getD DEFAULT_USER_SETTINGS
        stats := data.stats.getD DEFAULT_USER_STATS }

/-- The ten Firebase error codes mapped by `getAuthErrorMessage`. -/
def authErrorCodes : List String :=
  [ "auth/email-already-in-use"
  , "auth/invalid-email"
  , "auth/operation-not-allowed"
  , "auth/weak-password"
  , "auth/user-disabled"
  , "auth/user-not-found"
  , "auth/wrong-password"
  , "auth/invalid-credential"
  , "auth/too-many-requests"
  , "auth/network-request-failed" ]

/-- `getAuthErrorMessage` from the authentication service: a record
lookup over the ten known Firebase error codes, falling back to a
generic message for any other input. -/
def getAuthErrorMessage (errorCode : String) : String :=
  if errorCode = "auth/email-already-in-use" then
    "An account with this email already exists."
  else if errorCode = "auth/invalid-email" then
    "Please enter a valid email address."
  else if errorCode = "auth/operation-not-allowed" then
    "Email/password accounts are not enabled."
  else if errorCode = "auth/weak-password" then
    "Password must be at least 6 characters."
  else if errorCode = "auth/user-disabled" then
    "This account has been disabled."
  else if errorCode = "auth/user-not-found" then
    "No account found with this email."
  else if errorCode = "auth/wrong-password" then
    "Incorrect password."
  else if errorCode = "auth/invalid-credential" then
    "Invalid email or password."
  else if errorCode = "auth/too-many-requests" then
    "Too many attempts. Please try again later."
  else if errorCode = "auth/network-request-failed" then
    "Network error. Check your connection."
  else
    "An unexpected error occurred."

/-- The eleven strings `getAuthErrorMessage` can return. -/
def authErrorMessages : List String :=
  [ "An account with this email already exists."
  , "Please enter a valid email address."
  , "Email/password accounts are not enabled."
  , "Password must be at least 6 characters."
  , "This account has been disabled."
  , "No account found with this email."
  , "Incorrect password."
  , "Invalid email or password."
  , "Too many attempts. Please try again later."
  , "Network error. Check your connection."
  , "An unexpected error occurred." ]

/-- The identity exposed by the session, from `FirebaseUser` in
`types/index.ts` (`uid : string`, `email : string | null`). -/
structure FirebaseUser where
  uid : String
  email : Option String
deriving DecidableEq, Repr

/-- The locally exposed session view held by `AuthProvider`: the three
state cells `user`, `firebaseUser` and `isLoading`. -/
structure AuthView where
  user : Option LoadedUser
  firebaseUser : Option FirebaseUser
  isLoading : Bool
deriving DecidableEq, Repr

/-- `isAuthenticated` as computed in the context value:
`!!firebaseUser`. -/
def isAuthenticated (v : AuthView) : Bool :=
  v.firebaseUser.isSome

/-- Outcome of the awaited `getUserData` call inside the
`onAuthStateChanged` handler: the promise resolves with a profile or
`null`, or rejects (the `catch` branch). -/
inductive LoadOutcome where
  | ok (u : Option LoadedUser)
  | err
deriving DecidableEq, Repr

/-- The `onAuthStateChanged` handler of `AuthProvider`, embedded as the
list of locally observable views produced while handling one identity
event, in order. On an identity-present event the handler sets
`isLoading` and the new identity synchronously and then awaits
`getUserData`; the view at that suspend point (still holding the
previous `user` value) is the first element. The final element is the
view after the handler completes: `user` set to the load result, or to
`null` when loading failed, and `isLoading` cleared. On an
identity-absent event the handler clears identity and profile with no
intervening suspend point, so the only observable view is the completed
one. -/
def handleAuthEvent (s : AuthView) (ev : Option FirebaseUser)
    (load : LoadOutcome) : List AuthView :=
  match ev with
  | some authUser =>
    let pending : AuthView :=
      { s with isLoading := true, firebaseUser := some authUser }
    let loaded : Option LoadedUser :=
      match load with
      | .ok u => u
      | .err => none
    [pending, { pending with user := loaded, isLoading := false }]
  | none =>
    [{ user := none, firebaseUser := none, isLoading := false }]

/-- The `completeOnboarding` callback of `AuthProvider`. It throws when
no identity is present; otherwise it awaits the Firestore write
(`updateDoc` setting `onboardingCompleted: true`) and only then updates
the local `user` state. The embedding returns the list of locally
observable views on the success path: the view at the suspend point of
the awaited write (unchanged), then the view after the local update. On
write failure the callback throws and performs no local update. -/
def completeOnboardingTrace (s : AuthView) (writeOk : Bool) :
    Except String (List AuthView) :=
  match s.firebaseUser with
  | none => .error "No user logged in"
  | some _ =>
    if writeOk then
      .ok [s, { s with
        user := s.user.map (fun u => { u with onboardingCompleted := true }) }]
    else
      .error "Failed to complete onboarding. Please try again."

/-- Observation status, from `ObservationStatus` in `types/index.ts`. -/
inductive ObservationStatus where
  | uploaded
  | analyzing
  | ready_for_review
  | confirmed
  | saved
  | deleted
  | failed
deriving DecidableEq, Repr

/-- Image reference, from `ObservationImage` in `types/index.ts`. -/
structure ObservationImage where
  storagePath : String
  downloadUrl : String
deriving DecidableEq, Repr

/-- Species category, from `SpeciesCategory` in `types/index.ts`. -/
inductive SpeciesCategory where
  | plant
  | insect
  | animal
deriving DecidableEq, Repr

/-- A ranked recognition suggestion, from `RecognitionSuggestion` in
`types/index.ts`. Confidence is embedded as a rational in place of the
source float. -/
structure RecognitionSuggestion where
  speciesId : String
  name : String
  latinName : String
  confidence : ℚ
  referenceImageUrl : String
  category : SpeciesCategory
deriving DecidableEq, Repr

/-- The confirmation written on an observation, from `ConfirmedSpecies`
in `types/index.ts`. -/
structure ConfirmedSpecies where
  speciesId : String
  confidence : ℚ
  isNewForUser : Bool
deriving DecidableEq, Repr

/-- Observation location, from `ObservationLocation` in
`types/index.ts`. -/
structure ObservationLocation where
  enabled : Bool
  label : Option String
deriving DecidableEq, Repr

/-- An observation record, from `Observation` in `types/index.ts`:
`confirmed` is the optional field whose presence is tied to the status
by the specified invariant. -/
structure Observation where
  id : String
  uid : String
  status : ObservationStatus
  createdAt : Nat
  image : ObservationImage
  suggestions : List RecognitionSuggestion
  confirmed : Option ConfirmedSpecies
  location : ObservationLocation
deriving DecidableEq, Repr

/-- The profile record, from `User` in `types/index.ts`. -/
structure User where
  email : String
  createdAt : Nat
  onboardingCompleted : Bool
  settings : UserSettings
  stats : UserStats
deriving DecidableEq, Repr

/-- Modelled from the spec: the error taxonomy of section 7 for the
lifecycle engine and confirmation workflow, which are not implemented in
the repository. -/
inductive EngineError where
  | staleTransition
  | confirmationConflict
  | profileLoadFailed
deriving DecidableEq, Repr

/-- Modelled from the spec: the persisted state the engine operates on —
the per-account profile documents and the observation records. The
lifecycle engine and confirmation workflow are not implemented in the
repository; only their record types are declared. -/
structure EngineState where
  profiles : String → Option User
  observations : List Observation

/-- Modelled from the spec: the operations of the core. `register` is
account registration (the document written by `signUp`); the remaining
operations are the rows of the transition table of section 4.1, with
`confirm` the discovery confirmation workflow of section 4.2. -/
inductive Op where
  | register (uid email : String) (now : Nat)
  | create (id uid : String) (img : ObservationImage)
      (loc : ObservationLocation) (now : Nat)
  | startAnalysis (id : String)
  | deliverSuggestions (id : String) (suggs : List RecognitionSuggestion)
  | reportFailure (id : String)
  | confirm (id : String) (speciesId : String)
  | delete (id : String)

/-- The profile record created at registration: the `signUp` document
(onboarding not completed, default settings, zero statistics). -/
def freshUser (email : String) (now : Nat) : User :=
  { email := email
    createdAt := now
    onboardingCompleted := false
    settings := DEFAULT_USER_SETTINGS
    stats := DEFAULT_USER_STATS }

/-- Look up the observation record carrying a given id. -/
def findObs (s : EngineState) (id : String) : Option Observation :=
  s.observations.find? (fun o => decide (o.id = id))

/-- Modelled from the spec: step 1 of the confirmation workflow —
whether some other observation record owned by the same account, in
status `confirmed` or `saved`, already carries the selected species id
in its confirmation. -/
def speciesAlreadyConfirmed (s : EngineState) (id uid sp : String) : Bool :=
  s.observations.any fun o =>
    decide (o.id ≠ id ∧ o.uid = uid ∧
      (o.status = .confirmed ∨ o.status = .saved) ∧
      o.confirmed.map (fun c => c.speciesId) = some sp)

/-- Step 3 of the confirmation workflow applied to a profile record:
the observation count always increments, the distinct-species count
increments exactly when the species is new for the user. -/
def bumpStats (isNew : Bool) (u : User) : User :=
  { u with stats :=
      { observationsCount := u.stats.observationsCount + 1
        speciesDiscoveredCount :=
          u.stats.speciesDiscoveredCount + (if isNew then 1 else 0) } }

/-- Step 2 of the confirmation workflow applied to the observation
record: write the confirmation and advance the status to `saved`
(through `confirmed`). -/
def confirmUpdate (c : ConfirmedSpecies) (o : Observation) : Observation :=
  { o with status := .saved, confirmed := some c }

/-- Modelled from the spec: the successful confirmation workflow as one
atomic unit — write `confirmed` on the observation and advance it to
`saved` (through `confirmed`), and apply the statistics increments to
the owner profile. -/
def applyConfirm (s : EngineState) (o : Observation)
    (sg : RecognitionSuggestion) (sp : String) : EngineState :=
  let isNew := !speciesAlreadyConfirmed s o.id o.uid sp
  { profiles := fun u =>
      if u = o.uid then (s.profiles u).map (bumpStats isNew)
      else s.profiles u
    observations := s.observations.map fun o' =>
      if o'.id = o.id then
        confirmUpdate
          { speciesId := sp, confidence := sg.confidence
            isNewForUser := isNew } o'
      else o' }

/-- Modelled from the spec: one guarded status transition. When no
record carries the id, or the guard (which includes the required `from`
status) does not hold on the current record, the attempt is rejected
with `StaleTransition` and the state is returned unchanged. -/
def transitionObs (s : EngineState) (id : String)
    (g : Observation → Bool) (a : Observation → Observation) :
    EngineState × Option EngineError :=
  match findObs s id with
  | none => (s, some .staleTransition)
  | some o =>
    if g o then
      ({ s with observations := s.observations.map fun o' =>
          if decide (o'.id = id) && g o' then a o' else o' }, none)
    else (s, some .staleTransition)

/-- Modelled from the spec: the engine step function. Each operation
either succeeds with the new state, or rejects with a typed error and
the unchanged state (a rejected attempt is never silently applied).
Guards follow the transition table of section 4.1: creation requires a
non-empty image reference (and a fresh id, since ids are generated at
creation), suggestions are delivered only to an `analyzing` record and
must be non-empty, confirmation requires `ready_for_review`, the
selected species among the suggestions, and the owner profile, and
deletion is allowed from every status except `deleted` and `failed`. -/
def stepOp (s : EngineState) : Op → EngineState × Option EngineError
  | .register uid email now =>
    ({ s with profiles := fun u =>
        if u = uid then some (freshUser email now) else s.profiles u },
      none)
  | .create id uid img loc now =>
    if img.storagePath ≠ "" ∧ s.observations.all (fun o => decide (o.id ≠ id)) then
      ({ s with observations :=
          { id := id, uid := uid, status := .uploaded, createdAt := now
            image := img, suggestions := [], confirmed := none
            location := loc } :: s.observations }, none)
    else (s, some .staleTransition)
  | .startAnalysis id =>
    transitionObs s id (fun o => decide (o.status = .uploaded))
      (fun o => { o with status := .analyzing })
  | .deliverSuggestions id suggs =>
    transitionObs s id
      (fun o => decide (o.status = .analyzing) && !suggs.isEmpty)
      (fun o => { o with status := .ready_for_review, suggestions := suggs })
  | .reportFailure id =>
    transitionObs s id (fun o => decide (o.status = .analyzing))
      (fun o => { o with status := .failed })
  | .confirm id sp =>
    match findObs s id with
    | none => (s, some .staleTransition)
    | some o =>
      if o.status = .ready_for_review then
        match o.suggestions.find? (fun sg => decide (sg.speciesId = sp)) with
        | none => (s, some .confirmationConflict)
        | some sg =>
          match s.profiles o.uid with
          | none => (s, some .profileLoadFailed)
          | some _ => (applyConfirm s o sg sp, none)
      else (s, some .staleTransition)
  | .delete id =>
    transitionObs s id
      (fun o => decide (o.status ≠ .deleted ∧ o.status ≠ .failed))
      (fun o => { o with status := .deleted })

/-- The empty initial state: no accounts, no observations. -/
def initState : EngineState :=
  { profiles := fun _ => none, observations := [] }

/-- Run a sequence of operations from the initial state, keeping the
(unchanged) state of every rejected operation. -/
def run (ops : List Op) : EngineState :=
  ops.foldl (fun s op => (stepOp s op).1) initState

/-- The statistics invariant of the profile records: the
distinct-species count never exceeds the observation count. -/
def statsInv (s : EngineState) : Prop :=
  ∀ u p, s.profiles u = some p →
    p.stats.speciesDiscoveredCount ≤ p.stats.observationsCount

/-- The presence invariant tying the `confirmed` field to the status,
as it actually holds on the modelled engine: `confirmed` is present
whenever the status is `confirmed` or `saved`, and present only in
statuses `confirmed`, `saved` or `deleted` (a soft-deleted record keeps
a previously written confirmation). -/
def confirmedStatusInv (s : EngineState) : Prop :=
  ∀ o ∈ s.observations,
    ((o.status = .confirmed ∨ o.status = .saved) → o.confirmed.isSome = true) ∧
    (o.confirmed.isSome = true →
      o.status = .confirmed ∨ o.status = .saved ∨ o.status = .deleted)

/-- The code-to-message table implemented by `getAuthErrorMessage`. -/
def authErrorTable : List (String × String) :=
  [ ("auth/email-already-in-use", "An account with this email already exists.")
  , ("auth/invalid-email", "Please enter a valid email address.")
  , ("auth/operation-not-allowed", "Email/password accounts are not enabled.")
  , ("auth/weak-password", "Password must be at least 6 characters.")
  , ("auth/user-disabled", "This account has been disabled.")
  , ("auth/user-not-found", "No account found with this email.")
  , ("auth/wrong-password", "Incorrect password.")
  , ("auth/invalid-credential", "Invalid email or password.")
  , ("auth/too-many-requests", "Too many attempts. Please try again later.")
  , ("auth/network-request-failed", "Network error. Check your connection.") ]

/-- A user document that exists but carries none of the optional
fields, used to exercise the defaulting paths of `getUserData`. -/
def c9doc : UserDoc :=
  { email := none, createdAt := none, onboardingCompleted := none
    settings := none, stats := none }

/-- A loaded profile that has not completed onboarding. -/
def c5profile : LoadedUser :=
  { email := some "a@b.c", createdAt := 0, onboardingCompleted := false
    settings := DEFAULT_USER_SETTINGS, stats := DEFAULT_USER_STATS }

/-- A session view with an identity present and a profile that has not
completed onboarding. -/
def c5start : AuthView :=
  { user := some c5profile
    firebaseUser := some { uid := "u1", email := some "a@b.c" }
    isLoading := false }

/-- A concrete image reference. -/
def c1img : ObservationImage :=
  { storagePath := "img/1", downloadUrl := "https://img.example/1" }

/-- A concrete location with saving disabled. -/
def c1loc : ObservationLocation := { enabled := false, label := none }

/-- A concrete top-ranked suggestion for species "A". -/
def c1sg : RecognitionSuggestion :=
  { speciesId := "A", name := "Oak", latinName := "Quercus robur"
    confidence := mkRat 9 10, referenceImageUrl := "ref/A"
    category := .plant }

/-- A concrete state holding one account and one observation that is
ready for review with one suggestion. -/
def c1s : EngineState :=
  run [ .register "alice" "alice@example.com" 0
      , .create "o1" "alice" c1img c1loc 1
      , .startAnalysis "o1"
      , .deliverSuggestions "o1" [c1sg] ]

/-- The state after confirming species "A" on that observation. -/
def c1s' : EngineState := (stepOp c1s (.confirm "o1" "A")).1

/-- The ready-for-review observation held in `c1s`. -/
def c1obs : Observation :=
  { id := "o1", uid := "alice", status := .ready_for_review, createdAt := 1
    image := c1img, suggestions := [c1sg], confirmed := none
    location := c1loc }

/-- The profile record held in `c1s`. -/
def c1p : User := freshUser "alice@example.com" 0

/-- The profile record after the first confirmation: one observation,
one discovered species. -/
def c1p' : User := bumpStats true c1p

/-- A concrete image reference for the deletion scenario. -/
def c2img : ObservationImage :=
  { storagePath := "img/2", downloadUrl := "https://img.example/2" }

/-- A concrete location for the deletion scenario. -/
def c2loc : ObservationLocation := { enabled := false, label := none }

/-- A concrete suggestion for the deletion scenario. -/
def c2sg : RecognitionSuggestion :=
  { speciesId := "A", name := "Oak", latinName := "Quercus robur"
    confidence := mkRat 9 10, referenceImageUrl := "ref/A"
    category := .plant }

/-- A full pass through the lifecycle followed by an explicit user
deletion of the saved observation. -/
def c2ops : List Op :=
  [ .register "u1" "mail@example.com" 0
  , .create "o1" "u1" c2img c2loc 1
  , .startAnalysis "o1"
  , .deliverSuggestions "o1" [c2sg]
  , .confirm "o1" "A"
  , .delete "o1" ]

/-- The soft-deleted record produced by `c2ops`: status `deleted`, yet
still carrying the confirmation written before deletion. -/
def c2obs : Observation :=
  { id := "o1", uid := "u1", status := .deleted, createdAt := 1
    image := c2img, suggestions := [c2sg]
    confirmed := some
      { speciesId := "A", confidence := mkRat 9 10, isNewForUser := true }
    location := c2loc }

/-- A concrete image reference for the repeat-confirmation scenario. -/
def c3img : ObservationImage :=
  { storagePath := "img/3", downloadUrl := "https://img.example/3" }

/-- A concrete location for the repeat-confirmation scenario. -/
def c3loc : ObservationLocation := { enabled := false, label := none }

/-- A concrete suggestion for species "A". -/
def c3sg : RecognitionSuggestion :=
  { speciesId := "A", name := "Oak", latinName := "Quercus robur"
    confidence := mkRat 9 10, referenceImageUrl := "ref/A"
    category := .plant }

/-- One account that has already confirmed species "A" once and now
holds a second observation of the same species ready for review. -/
def c3ops : List Op :=
  [ .register "u1" "m@example.com" 0
  , .create "o1" "u1" c3img c3loc 1
  , .startAnalysis "o1"
  , .deliverSuggestions "o1" [c3sg]
  , .confirm "o1" "A"
  , .create "o2" "u1" c3img c3loc 2
  , .startAnalysis "o2"
  , .deliverSuggestions "o2" [c3sg] ]

/-- The state reached by `c3ops`. -/
def c3s : EngineState := run c3ops

/-- The state after the second confirmation of species "A". -/
def c3s' : EngineState := (stepOp c3s (.confirm "o2" "A")).1

/-- The second, ready-for-review observation held in `c3s`. -/
def c3obs2 : Observation :=
  { id := "o2", uid := "u1", status := .ready_for_review, createdAt := 2
    image := c3img, suggestions := [c3sg], confirmed := none
    location := c3loc }

lemma speciesAlreadyConfirmed_iff (s : EngineState) (id uid sp : String) :
    speciesAlreadyConfirmed s id uid sp = true ↔
      ∃ o ∈ s.observations, o.id ≠ id ∧ o.uid = uid ∧
        (o.status = .confirmed ∨ o.status = .saved) ∧
        o.confirmed.map (fun c => c.speciesId) = some sp := by
  simp [speciesAlreadyConfirmed, List.any_eq_true]

lemma transitionObs_fst_profiles (s : EngineState) (id : String)
    (g : Observation → Bool) (a : Observation → Observation) :
    ((transitionObs s id g a).1).profiles = s.profiles := by
  unfold transitionObs
  split
  · rfl
  · split <;> rfl

lemma statsInv_stepOp (s : EngineState) (op : Op) (h : statsInv s) :
    statsInv (stepOp s op).1 := by
  cases op with
  | register uid email now =>
    intro u p hp
    simp only [stepOp] at hp
    split at hp
    · cases hp
      simp [freshUser, DEFAULT_USER_STATS]
    · exact h u p hp
  | create id uid img loc now =>
    intro u p hp
    simp only [stepOp] at hp
    split at hp
    · exact h u p hp
    · exact h u p hp
  | startAnalysis id =>
    intro u p hp
    simp only [stepOp] at hp
    rw [transitionObs_fst_profiles] at hp
    exact h u p hp
  | deliverSuggestions id suggs =>
    intro u p hp
    simp only [stepOp] at hp
    rw [transitionObs_fst_profiles] at hp
    exact h u p hp
  | reportFailure id =>
    intro u p hp
    simp only [stepOp] at hp
    rw [transitionObs_fst_profiles] at hp
    exact h u p hp
  | delete id =>
    intro u p hp
    simp only [stepOp] at hp
    rw [transitionObs_fst_profiles] at hp
    exact h u p hp
  | confirm id sp =>
    intro u p hp
    simp only [stepOp] at hp
    split at hp
    · exact h u p hp
    · split at hp
      · split at hp
        · exact h u p hp
        · split at hp
          · exact h u p hp
          · simp only [applyConfirm] at hp
            split at hp
            · rename_i huid
              cases hq : s.profiles u with
              | none => rw [hq] at hp; simp at hp
              | some q =>
                rw [hq] at hp
                cases hp
                have hle := h u q hq
                simp only [bumpStats]
                split <;> omega
            · exact h u p hp
      · exact h u p hp

lemma statsInv_foldl (ops : List Op) :
    ∀ s, statsInv s →
      statsInv (ops.foldl (fun s op => (stepOp s op).1) s) := by
  induction ops with
  | nil => intro s h; exact h
  | cons op rest ih => intro s h; exact ih _ (statsInv_stepOp s op h)

lemma statsInv_run (ops : List Op) : statsInv (run ops) := by
  apply statsInv_foldl
  intro u p hp
  simp [initState] at hp

lemma confirm_success (s s' : EngineState) (id sp : String)
    (h : stepOp s (.confirm id sp) = (s', none)) :
    ∃ o sg, findObs s id = some o ∧ o.status = .ready_for_review ∧
      o.suggestions.find? (fun g => decide (g.speciesId = sp)) = some sg ∧
      (∃ q, s.profiles o.uid = some q) ∧
      s' = applyConfirm s o sg sp := by
  simp only [stepOp] at h
  split at h
  · simp at h
  · rename_i o hfind
    split at h
    · rename_i hstat
      split at h
      · simp at h
      · rename_i sg hsg
        split at h
        · simp at h
        · rename_i q hq
          obtain ⟨h1, -⟩ := Prod.mk.injEq .. ▸ h
          exact ⟨o, sg, hfind, hstat, hsg, ⟨q, hq⟩, h1.symm⟩
    · simp at h

lemma confirmedStatusInv_transitionObs (s : EngineState) (id : String)
    (g : Observation → Bool) (a : Observation → Observation)
    (h : confirmedStatusInv s)
    (ha : ∀ o ∈ s.observations, g o = true →
      (((a o).status = .confirmed ∨ (a o).status = .saved) →
        (a o).confirmed.isSome = true) ∧
      ((a o).confirmed.isSome = true →
        (a o).status = .confirmed ∨ (a o).status = .saved ∨
          (a o).status = .deleted)) :
    confirmedStatusInv (transitionObs s id g a).1 := by
  unfold transitionObs
  split
  · exact h
  · split
    · intro o ho
      simp only [List.mem_map] at ho
      obtain ⟨o₀, ho₀, rfl⟩ := ho
      by_cases hcond : (decide (o₀.id = id) && g o₀) = true
      · rw [if_pos hcond]
        rw [Bool.and_eq_true] at hcond
        exact ha o₀ ho₀ hcond.2
      · rw [if_neg hcond]
        exact h o₀ ho₀
    · exact h

lemma confirmedStatusInv_stepOp (s : EngineState) (op : Op)
    (h : confirmedStatusInv s) : confirmedStatusInv (stepOp s op).1 := by
  cases op with
  | register uid email now => exact h
  | create id uid img loc now =>
    simp only [stepOp]
    split
    · intro o ho
      rcases List.mem_cons.mp ho with rfl | ho₀
      · constructor
        · rintro (hc | hc) <;> simp at hc
        · intro hsome; simp at hsome
      · exact h o ho₀
    · exact h
  | startAnalysis id =>
    apply confirmedStatusInv_transitionObs _ _ _ _ h
    intro o ho hg
    have hst : o.status = .uploaded := of_decide_eq_true hg
    constructor
    · rintro (hc | hc) <;> simp at hc
    · intro hsome
      have h2 := (h o ho).2 hsome
      rw [hst] at h2
      simp at h2
  | deliverSuggestions id suggs =>
    apply confirmedStatusInv_transitionObs _ _ _ _ h
    intro o ho hg
    rw [Bool.and_eq_true] at hg
    have hst : o.status = .analyzing := of_decide_eq_true hg.1
    constructor
    · rintro (hc | hc) <;> simp at hc
    · intro hsome
      have h2 := (h o ho).2 hsome
      rw [hst] at h2
      simp at h2
  | reportFailure id =>
    apply confirmedStatusInv_transitionObs _ _ _ _ h
    intro o ho hg
    have hst : o.status = .analyzing := of_decide_eq_true hg
    constructor
    · rintro (hc | hc) <;> simp at hc
    · intro hsome
      have h2 := (h o ho).2 hsome
      rw [hst] at h2
      simp at h2
  | delete id =>
    apply confirmedStatusInv_transitionObs _ _ _ _ h
    intro o ho hg
    constructor
    · rintro (hc | hc) <;> simp at hc
    · intro _
      exact Or.inr (Or.inr rfl)
  | confirm id sp =>
    simp only [stepOp]
    split
    · exact h
    · rename_i o hfind
      split
      · split
        · exact h
        · split
          · exact h
          · intro o' ho'
            simp only [applyConfirm, List.mem_map] at ho'
            obtain ⟨o₀, ho₀, rfl⟩ := ho'
            by_cases hid : o₀.id = o.id
            · rw [if_pos hid]
              exact ⟨fun _ => rfl, fun _ => Or.inr (Or.inl rfl)⟩
            · rw [if_neg hid]
              exact h o₀ ho₀
      · exact h

lemma confirmedStatusInv_foldl (ops : List Op) :
    ∀ s, confirmedStatusInv s →
      confirmedStatusInv (ops.foldl (fun s op => (stepOp s op).1) s) := by
  induction ops with
  | nil => intro s h; exact h
  | cons op rest ih =>
    intro s h
    exact ih _ (confirmedStatusInv_stepOp s op h)

lemma confirmedStatusInv_run (ops : List Op) :
    confirmedStatusInv (run ops) := by
  apply confirmedStatusInv_foldl
  intro o ho
  simp [initState] at ho

/-- A concrete image reference for the stale-transition scenario. -/
def c4img : ObservationImage :=
  { storagePath := "img/4", downloadUrl := "https://img.example/4" }

/-- A concrete location for the stale-transition scenario. -/
def c4loc : ObservationLocation := { enabled := false, label := none }

/-- A state holding one observation that the user already deleted. -/
def c4s : EngineState :=
  run [ .register "u4" "m4@example.com" 0
      , .create "o1" "u4" c4img c4loc 1
      , .delete "o1" ]

/-- The deleted record held in `c4s`. -/
def c4obs : Observation :=
  { id := "o1", uid := "u4", status := .deleted, createdAt := 1
    image := c4img, suggestions := [], confirmed := none
    location := c4loc }

lemma findObs_id (s : EngineState) (id : String) (o : Observation)
    (h : findObs s id = some o) : o.id = id := by
  unfold findObs at h
  have h2 := List.find?_some h
  exact of_decide_eq_true h2

lemma find?_map_ite (l : List Observation) (key : String)
    (f : Observation → Observation) (hf : ∀ o, (f o).id = o.id) :
    (l.map fun o => if o.id = key then f o else o).find?
        (fun o => decide (o.id = key)) =
      (l.find? (fun o => decide (o.id = key))).map f := by
  induction l with
  | nil => rfl
  | cons a t ih =>
    simp only [List.map_cons]
    by_cases ha : a.id = key
    · rw [if_pos ha]
      rw [List.find?_cons_of_pos _ (by simp [hf, ha]),
        List.find?_cons_of_pos _ (by simp [ha])]
      rfl
    · rw [if_neg ha]
      rw [List.find?_cons_of_neg _ (by simp [ha]),
        List.find?_cons_of_neg _ (by simp [ha])]
      exact ih

lemma getAuthErrorMessage_mem (s : String) :
    getAuthErrorMessage s ∈ authErrorMessages := by
  unfold getAuthErrorMessage
  split_ifs <;> simp [authErrorMessages]

/-- C10: `getAuthErrorMessage` maps each of the ten listed Firebase
error codes to its user-facing message, returns exactly
"An unexpected error occurred." on every other input string, and never
returns the empty string or the raw error code itself. -/
theorem getAuthErrorMessage_spec (s : String) :
    (∀ p ∈ authErrorTable, getAuthErrorMessage p.1 = p.2) ∧
    (s ∉ authErrorCodes →
      getAuthErrorMessage s = "An unexpected error occurred.") ∧
    getAuthErrorMessage s ≠ "" ∧
    (s ∈ authErrorCodes → getAuthErrorMessage s ≠ s) := by
  refine ⟨by decide, ?_, ?_, ?_⟩
  · intro h
    simp only [authErrorCodes, List.mem_cons, List.not_mem_nil, or_false,
      not_or] at h
    obtain ⟨h1, h2, h3, h4, h5, h6, h7, h8, h9, h10⟩ := h
    simp only [getAuthErrorMessage, if_neg h1, if_neg h2, if_neg h3,
      if_neg h4, if_neg h5, if_neg h6, if_neg h7, if_neg h8, if_neg h9,
      if_neg h10]
  · intro hempty
    have hmem := getAuthErrorMessage_mem s
    rw [hempty] at hmem
    exact absurd hmem (by decide)
  · intro hmem
    simp only [authErrorCodes, List.mem_cons, List.not_mem_nil,
      or_false] at hmem
    rcases hmem with rfl | rfl | rfl | rfl | rfl | rfl | rfl | rfl | rfl | rfl
      <;> decide

/-- C10 witness: the theorem evaluated at one mapped code, one unknown
code, and one raw-code non-return. -/
theorem getAuthErrorMessage_spec_witness :
    getAuthErrorMessage "auth/weak-password" =
      "Password must be at least 6 characters." ∧
    getAuthErrorMessage "auth/some-new-code" =
      "An unexpected error occurred." ∧
    getAuthErrorMessage "auth/wrong-password" ≠ "auth/wrong-password" :=
  ⟨(getAuthErrorMessage_spec "x").1
      ("auth/weak-password", "Password must be at least 6 characters.")
      (by decide),
   (getAuthErrorMessage_spec "auth/some-new-code").2.1 (by decide),
   (getAuthErrorMessage_spec "auth/wrong-password").2.2.2 (by decide)⟩

/-- C8: the user document written by `signUp` for a new account has
`locationEnabled = false`, `onboardingCompleted = false` and zero
statistics. -/
theorem signUp_creates_default_profile (email : Option String) (now : Nat) :
    (signUpUserDoc email now).onboardingCompleted = some false ∧
    (signUpUserDoc email now).settings = some DEFAULT_USER_SETTINGS ∧
    DEFAULT_USER_SETTINGS.locationEnabled = false ∧
    (signUpUserDoc email now).stats = some DEFAULT_USER_STATS ∧
    DEFAULT_USER_STATS.observationsCount = 0 ∧
    DEFAULT_USER_STATS.speciesDiscoveredCount = 0 :=
  ⟨rfl, rfl, rfl, rfl, rfl, rfl⟩

/-- C9 counterexample: a user document that exists but lacks the
`email` field yields a profile (not `null`) whose `email` is undefined,
so `getUserData` can return a partially undefined profile. -/
theorem getUserData_missing_email_counterexample :
    (getUserData (some c9doc) 0).isSome = true ∧
    (getUserData (some c9doc) 0).bind (fun p => p.email) = none :=
  ⟨rfl, rfl⟩

/-- C9 amended: `getUserData` returns `null` exactly when the document
does not exist; when it exists, `onboardingCompleted`, `settings`,
`stats` and `createdAt` are always defined, each replaced by its default
when missing, while `email` is copied through unchanged and is therefore
undefined whenever the document lacks it. -/
theorem getUserData_defaults (doc : Option UserDoc) (now : Nat) :
    (getUserData doc now = none ↔ doc = none) ∧
    (∀ d, doc = some d → ∃ p, getUserData doc now = some p ∧
      p.email = d.email ∧
      (d.createdAt = none → p.createdAt = now) ∧
      (∀ t, d.createdAt = some t → p.createdAt = t) ∧
      (d.onboardingCompleted = none → p.onboardingCompleted = false) ∧
      (d.settings = none → p.settings = DEFAULT_USER_SETTINGS ∧
        p.settings.locationEnabled = false ∧ p.settings.language = .nl) ∧
      (d.stats = none → p.stats.observationsCount = 0 ∧
        p.stats.speciesDiscoveredCount = 0)) := by
  constructor
  · cases doc <;> simp [getUserData]
  · rintro d rfl
    refine ⟨_, rfl, rfl, ?_, ?_, ?_, ?_, ?_⟩
    · rintro h; simp [h]
    · rintro t h; simp [h]
    · rintro h; simp [h]
    · rintro h; simp [h, DEFAULT_USER_SETTINGS]
    · rintro h; simp [h, DEFAULT_USER_STATS]

/-- C9 witness: the amended theorem evaluated on the empty document. -/
theorem getUserData_defaults_witness :
    ∃ p, getUserData (some c9doc) 7 = some p ∧
      p.email = c9doc.email ∧
      (c9doc.createdAt = none → p.createdAt = 7) ∧
      (∀ t, c9doc.createdAt = some t → p.createdAt = t) ∧
      (c9doc.onboardingCompleted = none → p.onboardingCompleted = false) ∧
      (c9doc.settings = none → p.settings = DEFAULT_USER_SETTINGS ∧
        p.settings.locationEnabled = false ∧ p.settings.language = .nl) ∧
      (c9doc.stats = none → p.stats.observationsCount = 0 ∧
        p.stats.speciesDiscoveredCount = 0) :=
  (getUserData_defaults (some c9doc) 7).2 c9doc rfl

/-- C5 counterexample: with an identity present and a profile whose
`onboardingCompleted` is false, the first view exposed by
`completeOnboarding` — the one visible while the persistence write is
still pending — still shows `onboardingCompleted = false`: the local
flip waits for the write instead of being applied optimistically. -/
theorem completeOnboarding_not_optimistic :
    c5start.firebaseUser.isSome = true ∧
    (completeOnboardingTrace c5start true).toOption.bind
      (fun t => t.head?.bind (fun v => v.user.map
        (fun u => u.onboardingCompleted))) = some false :=
  ⟨rfl, rfl⟩

/-- C5 amended: with an identity present, `completeOnboarding` flips
`onboardingCompleted` in the local session view only after the
persistence write succeeds: the view exposed while the write is pending
is unchanged, the view after a successful write carries the flipped
flag, and on write failure the view is never updated and an error is
thrown. -/
theorem completeOnboarding_updates_after_write (s : AuthView)
    (fu : FirebaseUser) (p : LoadedUser)
    (hfu : s.firebaseUser = some fu) (hp : s.user = some p) :
    completeOnboardingTrace s true =
      .ok [s, { s with user := some { p with onboardingCompleted := true } }] ∧
    completeOnboardingTrace s false =
      .error "Failed to complete onboarding. Please try again." := by
  unfold completeOnboardingTrace
  rw [hfu, hp]
  exact ⟨rfl, rfl⟩

/-- C5 witness: the amended theorem evaluated on a concrete view. -/
theorem completeOnboarding_updates_after_write_witness :
    completeOnboardingTrace c5start true =
      .ok [c5start, { c5start with
        user := some { c5profile with onboardingCompleted := true } }] ∧
    completeOnboardingTrace c5start false =
      .error "Failed to complete onboarding. Please try again." :=
  completeOnboarding_updates_after_write c5start
    { uid := "u1", email := some "a@b.c" } c5profile rfl rfl

/-- C6: on an identity-absent event, every view exposed by the handler
has both identity and profile cleared — there is no intermediate view
attributing a stale profile to a missing or different identity. -/
theorem signOut_clears_identity_and_profile (s : AuthView)
    (load : LoadOutcome) (v : AuthView)
    (hv : v ∈ handleAuthEvent s none load) :
    v.firebaseUser = none ∧ v.user = none := by
  simp only [handleAuthEvent, List.mem_singleton] at hv
  subst hv
  exact ⟨rfl, rfl⟩

/-- C6 witness: the theorem evaluated on a concrete sign-out event. -/
theorem signOut_clears_identity_and_profile_witness :
    ({ user := none, firebaseUser := none, isLoading := false } :
      AuthView).firebaseUser = none ∧
    ({ user := none, firebaseUser := none, isLoading := false } :
      AuthView).user = none :=
  signOut_clears_identity_and_profile c5start (.ok none)
    { user := none, firebaseUser := none, isLoading := false } (by decide)

/-- C7: on an identity-present event whose profile load fails, the view
after the handler completes exposes the new identity with a `null`
profile — never a stale profile — and the session counts as
authenticated. -/
theorem profile_load_failure_degrades_gracefully (s : AuthView)
    (authUser : FirebaseUser) :
    (handleAuthEvent s (some authUser) .err).getLast? =
      some { user := none, firebaseUser := some authUser,
             isLoading := false } ∧
    isAuthenticated
      { user := none, firebaseUser := some authUser,
        isLoading := false } = true :=
  ⟨rfl, rfl⟩

/-- C1: after any sequence of engine operations, every profile record
satisfies `speciesDiscoveredCount ≤ observationsCount`; the record
created at registration starts at 0/0; and every successful
confirmation increments `observationsCount` by exactly 1 and
`speciesDiscoveredCount` by at most 1. -/
theorem stats_invariant :
    (∀ ops u p, (run ops).profiles u = some p →
      p.stats.speciesDiscoveredCount ≤ p.stats.observationsCount) ∧
    (∀ (s : EngineState) (uid email : String) (now : Nat),
      ((stepOp s (.register uid email now)).1).profiles uid =
        some (freshUser email now) ∧
      (freshUser email now).stats.observationsCount = 0 ∧
      (freshUser email now).stats.speciesDiscoveredCount = 0) ∧
    (∀ (s s' : EngineState) (id sp : String) (o : Observation) (p p' : User),
      stepOp s (.confirm id sp) = (s', none) →
      findObs s id = some o →
      s.profiles o.uid = some p →
      s'.profiles o.uid = some p' →
      p'.stats.observationsCount = p.stats.observationsCount + 1 ∧
      p.stats.speciesDiscoveredCount ≤ p'.stats.speciesDiscoveredCount ∧
      p'.stats.speciesDiscoveredCount ≤ p.stats.speciesDiscoveredCount + 1) := by
  refine ⟨?_, ?_, ?_⟩
  · intro ops u p hp
    exact statsInv_run ops u p hp
  · intro s uid email now
    refine ⟨?_, rfl, rfl⟩
    simp [stepOp]
  · intro s s' id sp o p p' hstep hfind hp hp'
    obtain ⟨o₀, sg, hfind₀, hstat, hsg, ⟨q, hq⟩, hs'⟩ :=
      confirm_success s s' id sp hstep
    rw [hfind] at hfind₀
    cases hfind₀
    subst hs'
    simp only [applyConfirm, if_true] at hp'
    rw [hp] at hp'
    cases hp'
    refine ⟨rfl, ?_, ?_⟩ <;> simp only [bumpStats] <;> split <;> omega

/-- C1 witness: the invariant, the registration defaults and the
confirmation increments evaluated on a concrete account and a concrete
first confirmation. -/
theorem stats_invariant_witness :
    c1p.stats.speciesDiscoveredCount ≤ c1p.stats.observationsCount ∧
    (((stepOp initState (.register "u" "e" 5)).1).profiles "u" =
        some (freshUser "e" 5) ∧
      (freshUser "e" 5).stats.observationsCount = 0 ∧
      (freshUser "e" 5).stats.speciesDiscoveredCount = 0) ∧
    (c1p'.stats.observationsCount = c1p.stats.observationsCount + 1 ∧
      c1p.stats.speciesDiscoveredCount ≤ c1p'.stats.speciesDiscoveredCount ∧
      c1p'.stats.speciesDiscoveredCount ≤
        c1p.stats.speciesDiscoveredCount + 1) :=
  ⟨stats_invariant.1 [.register "alice" "alice@example.com" 0] "alice" c1p
      (by decide),
   stats_invariant.2.1 initState "u" "e" 5,
   stats_invariant.2.2 c1s c1s' "o1" "A" c1obs c1p c1p' rfl (by decide)
      (by decide) (by decide)⟩

/-- C2 counterexample: the engine reaches a record whose `confirmed`
field is present while its status is neither `confirmed` nor `saved` —
confirming a species and then deleting the saved observation leaves a
soft-deleted record that still carries the confirmation. -/
theorem confirmed_presence_counterexample :
    findObs (run c2ops) "o1" = some c2obs ∧
    c2obs.confirmed.isSome = true ∧
    c2obs.status ≠ .confirmed ∧ c2obs.status ≠ .saved :=
  ⟨by decide, rfl, by decide, by decide⟩

/-- C2 amended: for every record reachable by the engine, `confirmed`
is present whenever the status is `confirmed` or `saved`, and present
only when the status is `confirmed`, `saved` or `deleted` — the
soft-deleted case being the one the original invariant missed. -/
theorem confirmed_presence_invariant (ops : List Op) (o : Observation)
    (ho : o ∈ (run ops).observations) :
    ((o.status = .confirmed ∨ o.status = .saved) →
      o.confirmed.isSome = true) ∧
    (o.confirmed.isSome = true →
      o.status = .confirmed ∨ o.status = .saved ∨
        o.status = .deleted) :=
  confirmedStatusInv_run ops o ho

/-- C2 witness: the amended invariant evaluated on the soft-deleted
record reached by `c2ops`. -/
theorem confirmed_presence_invariant_witness :
    ((c2obs.status = .confirmed ∨ c2obs.status = .saved) →
      c2obs.confirmed.isSome = true) ∧
    (c2obs.confirmed.isSome = true →
      c2obs.status = .confirmed ∨ c2obs.status = .saved ∨
        c2obs.status = .deleted) :=
  confirmed_presence_invariant c2ops c2obs (by decide)

/-- C3: a successful confirmation writes a `confirmed` record whose
`isNewForUser` flag is true exactly when no other observation of the
same account, in status `confirmed` or `saved`, already carries the
selected species; consequently, when such an observation exists, the
flag is false and the confirmation increments `observationsCount`
while leaving `speciesDiscoveredCount` unchanged. -/
theorem confirm_isNewForUser (s s' : EngineState) (id sp : String)
    (o : Observation)
    (hfind : findObs s id = some o)
    (hstep : stepOp s (.confirm id sp) = (s', none)) :
    ∃ c : ConfirmedSpecies,
      (findObs s' id).bind (fun o' => o'.confirmed) = some c ∧
      c.speciesId = sp ∧
      (c.isNewForUser = true ↔
        ¬ ∃ o' ∈ s.observations, o'.id ≠ id ∧ o'.uid = o.uid ∧
          (o'.status = .confirmed ∨ o'.status = .saved) ∧
          o'.confirmed.map (fun cc => cc.speciesId) = some sp) ∧
      (∀ p p', s.profiles o.uid = some p → s'.profiles o.uid = some p' →
        p'.stats.observationsCount = p.stats.observationsCount + 1 ∧
        ((∃ o' ∈ s.observations, o'.id ≠ id ∧ o'.uid = o.uid ∧
            (o'.status = .confirmed ∨ o'.status = .saved) ∧
            o'.confirmed.map (fun cc => cc.speciesId) = some sp) →
          c.isNewForUser = false ∧
          p'.stats.speciesDiscoveredCount =
            p.stats.speciesDiscoveredCount)) := by
  obtain ⟨o₀, sg, hfind₀, hstat, hsg, ⟨q, hq⟩, hs'⟩ :=
    confirm_success s s' id sp hstep
  rw [hfind] at hfind₀
  cases hfind₀
  subst hs'
  have hfind2 : s.observations.find? (fun o' => decide (o'.id = id)) =
      some o := hfind
  have hoid : o.id = id := findObs_id s id o hfind
  subst hoid
  refine ⟨⟨sp, sg.confidence, !speciesAlreadyConfirmed s o.id o.uid sp⟩,
    ?_, rfl, ?_, ?_⟩
  · show (findObs (applyConfirm s o sg sp) o.id).bind
      (fun o' => o'.confirmed) = _
    simp only [applyConfirm, findObs]
    rw [find?_map_ite s.observations o.id
      (confirmUpdate
        { speciesId := sp, confidence := sg.confidence
          isNewForUser := !speciesAlreadyConfirmed s o.id o.uid sp })
      (fun o' => rfl), hfind2]
    rfl
  · constructor
    · intro hnew hex
      have hb := (speciesAlreadyConfirmed_iff s o.id o.uid sp).mpr hex
      rw [hb] at hnew
      simp at hnew
    · intro hnex
      cases hb : speciesAlreadyConfirmed s o.id o.uid sp with
      | false => rfl
      | true =>
        exact absurd ((speciesAlreadyConfirmed_iff s o.id o.uid sp).mp hb)
          hnex
  · intro p p' hp hp'
    simp only [applyConfirm, if_true] at hp'
    rw [hp] at hp'
    cases hp'
    refine ⟨rfl, ?_⟩
    intro hex
    have hb := (speciesAlreadyConfirmed_iff s o.id o.uid sp).mpr hex
    exact ⟨by simp [hb], by simp [bumpStats, hb]⟩

/-- C3 witness: the theorem evaluated on a concrete second confirmation
of a species the account already confirmed — the written flag is false
and the distinct-species count is unchanged. -/
theorem confirm_isNewForUser_witness :
    (∃ c : ConfirmedSpecies,
      (findObs c3s' "o2").bind (fun o' => o'.confirmed) = some c ∧
      c.speciesId = "A" ∧
      (c.isNewForUser = true ↔
        ¬ ∃ o' ∈ c3s.observations, o'.id ≠ "o2" ∧ o'.uid = c3obs2.uid ∧
          (o'.status = .confirmed ∨ o'.status = .saved) ∧
          o'.confirmed.map (fun cc => cc.speciesId) = some "A") ∧
      (∀ p p', c3s.profiles c3obs2.uid = some p →
        c3s'.profiles c3obs2.uid = some p' →
        p'.stats.observationsCount = p.stats.observationsCount + 1 ∧
        ((∃ o' ∈ c3s.observations, o'.id ≠ "o2" ∧ o'.uid = c3obs2.uid ∧
            (o'.status = .confirmed ∨ o'.status = .saved) ∧
            o'.confirmed.map (fun cc => cc.speciesId) = some "A") →
          c.isNewForUser = false ∧
          p'.stats.speciesDiscoveredCount =
            p.stats.speciesDiscoveredCount))) ∧
    (findObs c3s' "o2").bind (fun o' => o'.confirmed) =
      some { speciesId := "A", confidence := mkRat 9 10
             isNewForUser := false } :=
  ⟨confirm_isNewForUser c3s c3s' "o2" "A" c3obs2 (by decide) rfl,
   by decide⟩

/-- C4: every transition attempt whose required `from` status does not
match the current status of the targeted record (or whose guard fails,
as with an empty suggestion list) is rejected with `StaleTransition`
and returns the state completely unchanged; in particular the
ready-for-review-to-confirmed transition attempted on a deleted record
fails this way. -/
theorem stale_transition_rejected (s : EngineState) (id sp : String)
    (suggs : List RecognitionSuggestion) (o : Observation)
    (hfind : findObs s id = some o) :
    (o.status ≠ .uploaded →
      stepOp s (.startAnalysis id) = (s, some .staleTransition)) ∧
    (o.status ≠ .analyzing →
      stepOp s (.deliverSuggestions id suggs) =
        (s, some .staleTransition)) ∧
    (suggs = [] →
      stepOp s (.deliverSuggestions id suggs) =
        (s, some .staleTransition)) ∧
    (o.status ≠ .analyzing →
      stepOp s (.reportFailure id) = (s, some .staleTransition)) ∧
    (o.status ≠ .ready_for_review →
      stepOp s (.confirm id sp) = (s, some .staleTransition)) ∧
    ((o.status = .deleted ∨ o.status = .failed) →
      stepOp s (.delete id) = (s, some .staleTransition)) := by
  refine ⟨?_, ?_, ?_, ?_, ?_, ?_⟩
  · intro h
    simp [stepOp, transitionObs, hfind, h]
  · intro h
    simp [stepOp, transitionObs, hfind, h]
  · intro h
    subst h
    simp [stepOp, transitionObs, hfind]
  · intro h
    simp [stepOp, transitionObs, hfind, h]
  · intro h
    simp [stepOp, hfind, h]
  · intro h
    rcases h with h | h <;> simp [stepOp, transitionObs, hfind, h]

/-- C4 witness: on the deleted record of `c4s`, both the confirmation
transition and the analysis-start transition are rejected with
`StaleTransition` and leave the state unchanged. -/
theorem stale_transition_rejected_witness :
    stepOp c4s (.confirm "o1" "A") = (c4s, some .staleTransition) ∧
    stepOp c4s (.startAnalysis "o1") = (c4s, some .staleTransition) :=
  ⟨(stale_transition_rejected c4s "o1" "A" [] c4obs
      (by decide)).2.2.2.2.1 (by decide),
   (stale_transition_rejected c4s "o1" "A" [] c4obs
      (by decide)).1 (by decide)⟩

end NatureArchive
